import Mathlib

/-!
Verification development for the phenopacket-ingest repository.

Shallow embedding of the record-to-graph-entity core:
  * `src/src/phenopacket_ingest/transform.py` (flat-row pipeline,
    `PhenopacketTransformer.process_row` and its helpers),
  * `src/src/phenopacket_ingest/transformer/phenopacket_transformer.py`
    (typed-record pipeline, `process_record` / `process_jsonl_line`),
  * `src/src/phenopacket_ingest/models/phenopacket.py`
    (`PhenopacketRecord.process_nested_objects`),
  * the interpretation-status normalization tables of
    `parser/phenopacket_parser.py`, `parser.py` and
    `models/interpretation.py`,
  * the pmid/external-reference collection of
    `parser/phenopacket_parser.py` (`phenopacket_to_jsonl_dict`).

Python conventions modelled explicitly:
  * an optional string field is `Option String`; Python truthiness of such
    a field (`if row.get("x")`) is `truthy`: `none` and `some ""` are falsy;
  * `dict.get(k, "")` is `orEmpty`;
  * `uuid.uuid4()` is an external entropy source, modelled as a stream
    `u : Nat → String` consumed left to right;
  * a raised exception is `Except.error` / an explicit error component;
    a `try/except` that swallows the exception discards that component.
-/

/-- Python truthiness of an optional string: `None` and `""` are falsy. -/
def truthy : Option String → Bool
  | none => false
  | some s => !(s == "")

/-- `dict.get(k, "")` / `x or ""` on an optional string. -/
def orEmpty : Option String → String
  | none => ""
  | some s => s

/-- Predicate constant `CAUSES` of transform.py. -/
def CAUSES : String := "biolink:causes"

/-- Predicate constant `CONTRIBUTES_TO` of transform.py. -/
def CONTRIBUTES_TO : String := "biolink:contributes_to"

/-- Predicate constant `GENE_ASSOCIATED_WITH_CONDITION` of transform.py. -/
def GENE_ASSOCIATED_WITH_CONDITION : String := "biolink:gene_associated_with_condition"

/-- Predicate constant `HAS_PHENOTYPE` of transform.py. -/
def HAS_PHENOTYPE : String := "biolink:has_phenotype"

/-- Predicate constant `IS_SEQUENCE_VARIANT_OF` of transform.py. -/
def IS_SEQUENCE_VARIANT_OF : String := "biolink:is_sequence_variant_of"

/-- The raw `subject` sub-dictionary of a flat JSONL row, as far as
pydantic validation of `models/phenopacket.py::Subject` inspects it:
`id` is the one required field. -/
structure RawSubj where
  id : Option String
deriving DecidableEq, Repr

/-- One element of the row's `observed_phenotypes` list.  `dict pid?`
is a JSON object whose `.get("id")` yields `pid?`; `notDict` is a
non-mapping element, on which `phenotype.get("id")` raises
`AttributeError` (the mid-loop failure point of `process_row`). -/
inductive PhenoItem where
  | dict (pid : Option String)
  | notDict
deriving DecidableEq, Repr

/-- A flat JSONL row as consumed by `transform.py::process_row`, holding
the fields that function reads (other keys are never touched).  List
fields arriving as JSON strings are pre-parsed by `process_row`; the
embedding starts from the parsed values. -/
structure Row where
  id : Option String
  subject : Option RawSubj
  gene_id : Option String
  gene_symbol : Option String
  disease_id : Option String
  disease_label : Option String
  variant_id : Option String
  chromosome : Option String
  position : Option String
  reference : Option String
  alternate : Option String
  variant_hgvs : List String
  interpretation_status : Option String
  pmids : List String
  observed_phenotypes : List PhenoItem
  meta_refs : List String
deriving DecidableEq, Repr

/-- The validated `PhenopacketRecord` (models/phenopacket.py) restricted
to the convenience fields that `process_row` reads back out of it. -/
structure PRecord where
  gene_id : Option String
  gene_symbol : Option String
  disease_id : Option String
  disease_label : Option String
  variant_id : Option String
  chromosome : Option String
  position : Option String
  reference : Option String
  alternate : Option String
  variant_hgvs : List String
  pmids : List String
deriving DecidableEq, Repr

/-- Python `str.startswith("PMID:")`, implemented on the character list
so the kernel can evaluate it. -/
def isPmid (s : String) : Bool :=
  match s.data with
  | 'P' :: 'M' :: 'I' :: 'D' :: ':' :: _ => true
  | _ => false

/-- The pmid sub-collection step of
`PhenopacketRecord.process_nested_objects` (models/phenopacket.py:432-435):
append each external-reference id starting with `PMID:`. -/
def pmidsFromRefs (refs : List String) : List String :=
  refs.filter (fun r => isPmid r)

/-- `PhenopacketRecord.model_validate(parsed_row)` as `process_row` calls
it: validation succeeds only when `id`, `subject` and `subject.id` are
present (pydantic required fields); on success the convenience fields are
copied over and `process_nested_objects` fills `pmids` from
`meta_data.external_references` when the row supplied none. -/
def modelValidate (row : Row) : Option PRecord :=
  match row.id, row.subject with
  | some _, some s =>
    match s.id with
    | some _ =>
      some { gene_id := row.gene_id
             gene_symbol := row.gene_symbol
             disease_id := row.disease_id
             disease_label := row.disease_label
             variant_id := row.variant_id
             chromosome := row.chromosome
             position := row.position
             reference := row.reference
             alternate := row.alternate
             variant_hgvs := row.variant_hgvs
             pmids := if row.pmids = [] then pmidsFromRefs row.meta_refs else row.pmids }
    | none => none
  | _, _ => none

/-- A Biolink `Gene` node as built by transform.py. -/
structure GeneE where
  id : String
  symbol : String
deriving DecidableEq, Repr

/-- A Biolink `Disease` node as built by transform.py. -/
structure DiseaseE where
  id : String
  name : String
deriving DecidableEq, Repr

/-- A Biolink `SequenceVariant` node as built by transform.py; the
record branch also sets `name`, the dict fallback does not. -/
structure VariantE where
  id : String
  name : Option String
  hasGene : Option String
  xref : Option (List String)
deriving DecidableEq, Repr

/-- The association class used for an edge (the Python pydantic class
the edge is constructed with). -/
inductive AssocKind where
  | geneToDisease
  | variantToGene
  | variantToDisease
  | caseToPhenotypicFeature
  | diseaseToPhenotypicFeature
deriving DecidableEq, Repr

/-- An association edge as built by transform.py. -/
structure Assoc where
  id : String
  subject : String
  predicate : String
  object : String
  kind : AssocKind
  publications : Option (List String)
deriving DecidableEq, Repr

/-- An entity written by `process_row`. -/
inductive Entity where
  | gene (g : GeneE)
  | disease (d : DiseaseE)
  | variant (v : VariantE)
  | assoc (a : Assoc)
deriving DecidableEq, Repr

/-- The Python exceptions the embedding distinguishes. -/
inductive PyErr where
  | attributeError
  | jsonDecodeError
deriving DecidableEq, Repr

/-- `PhenopacketTransformer.transform_gene` (transform.py:58-71). -/
def transform_gene (row : Row) : Option GeneE :=
  if !(truthy row.gene_id) || !(truthy row.gene_symbol) then none
  else some { id := orEmpty row.gene_id, symbol := orEmpty row.gene_symbol }

/-- `PhenopacketTransformer.transform_disease` (transform.py:73-83). -/
def transform_disease (row : Row) : Option DiseaseE :=
  if !(truthy row.disease_id) || !(truthy row.disease_label) then none
  else some { id := orEmpty row.disease_id, name := orEmpty row.disease_label }

/-- Python `str.replace("chr", "")` on the character list: leftmost
non-overlapping occurrences of `chr` removed, kernel-evaluable. -/
def replaceChrAux : List Char → List Char
  | 'c' :: 'h' :: 'r' :: rest => replaceChrAux rest
  | c :: rest => c :: replaceChrAux rest
  | [] => []

/-- `chromosome.replace("chr", "")` as transform.py applies it. -/
def stripChr (s : String) : String :=
  String.mk (replaceChrAux s.data)

/-- `PhenopacketTransformer.transform_variant` (transform.py:85-112):
requires an explicit id, or chromosome, position, reference and alternate
all truthy; a synthesized id is `{chrom-with-chr-removed}-{pos}-{ref}-{alt}`. -/
def transform_variant (row : Row) : Option VariantE :=
  if !(truthy row.variant_id ||
       (truthy row.chromosome && truthy row.position &&
        truthy row.reference && truthy row.alternate)) then
    none
  else
    let vid :=
      if !(truthy row.variant_id) && truthy row.chromosome && truthy row.position then
        stripChr (orEmpty row.chromosome) ++ "-" ++ orEmpty row.position ++ "-" ++
          orEmpty row.reference ++ "-" ++ orEmpty row.alternate
      else orEmpty row.variant_id
    some { id := vid
           name := none
           hasGene := if truthy row.gene_id then some (orEmpty row.gene_id) else none
           xref := if row.variant_hgvs = [] then none else some row.variant_hgvs }

/-- The variant id `process_row` derives on the validated-record branch
(transform.py:287-295): the record's id verbatim when truthy, else
`PPKT:{chrom-with-chr-removed}-{pos}-{ref or ""}-{alt or ""}` when
chromosome and position are truthy, else nothing. -/
def recordVariantId (r : PRecord) : Option String :=
  if truthy r.variant_id then some (orEmpty r.variant_id)
  else if truthy r.chromosome && truthy r.position then
    some ("PPKT:" ++ stripChr (orEmpty r.chromosome) ++ "-" ++ orEmpty r.position ++ "-" ++
      orEmpty r.reference ++ "-" ++ orEmpty r.alternate)
  else none

/-- The gene entity `process_row` settles on (transform.py:254-266):
record fields when the record validated with both truthy, else the dict
fallback `transform_gene`. -/
def geneOf (rec : Option PRecord) (row : Row) : Option GeneE :=
  match rec with
  | some r =>
    if truthy r.gene_id && truthy r.gene_symbol then
      some { id := orEmpty r.gene_id, symbol := orEmpty r.gene_symbol }
    else transform_gene row
  | none => transform_gene row

/-- The disease entity `process_row` settles on (transform.py:271-280). -/
def diseaseOf (rec : Option PRecord) (row : Row) : Option DiseaseE :=
  match rec with
  | some r =>
    if truthy r.disease_id && truthy r.disease_label then
      some { id := orEmpty r.disease_id, name := orEmpty r.disease_label }
    else transform_disease row
  | none => transform_disease row

/-- The variant entity `process_row` settles on (transform.py:285-309):
the record branch when an id resolves there, else the dict fallback. -/
def variantOf (rec : Option PRecord) (row : Row) : Option VariantE :=
  match rec with
  | some r =>
    match recordVariantId r with
    | some vid =>
      some { id := vid
             name := some vid
             hasGene := if truthy r.gene_id then some (orEmpty r.gene_id) else none
             xref := if r.variant_hgvs = [] then none else some r.variant_hgvs }
    | none => transform_variant row
  | none => transform_variant row

/-- The `publications` list of `process_row` (transform.py:245-250). -/
def publicationsOf (rec : Option PRecord) (row : Row) : List String :=
  match rec with
  | some r => if r.pmids = [] then (if row.pmids = [] then [] else row.pmids) else r.pmids
  | none => if row.pmids = [] then [] else row.pmids

/-- `publications if publications else None` on an association. -/
def pubsOpt (pubs : List String) : Option (List String) :=
  if pubs = [] then none else some pubs

/-- The node part of `process_row`'s entity list: gene, disease and
variant nodes appended in that order (transform.py:268/282/311). -/
def nodesSeg (g : Option GeneE) (d : Option DiseaseE) (v : Option VariantE) : List Entity :=
  (g.map Entity.gene).toList ++ (d.map Entity.disease).toList ++
    (v.map Entity.variant).toList

/-- The `if gene and disease` edge of `process_row`
(transform.py:375-387), paired with the count of uuids drawn so far. -/
def gdSeg (g : Option GeneE) (d : Option DiseaseE) (pubs : List String)
    (u : Nat → String) : List Entity × Nat :=
  match g, d with
  | some ge, some de =>
    ([Entity.assoc { id := u 0, subject := ge.id,
                     predicate := GENE_ASSOCIATED_WITH_CONDITION, object := de.id,
                     kind := AssocKind.geneToDisease, publications := pubsOpt pubs }], 1)
  | _, _ => ([], 0)

/-- The `if variant and gene` edge of `process_row`
(transform.py:389-401). -/
def vgSeg (v : Option VariantE) (g : Option GeneE) (pubs : List String)
    (u : Nat → String) (k : Nat) : List Entity × Nat :=
  match v, g with
  | some ve, some ge =>
    ([Entity.assoc { id := u k, subject := ve.id, predicate := IS_SEQUENCE_VARIANT_OF,
                     object := ge.id, kind := AssocKind.variantToGene,
                     publications := pubsOpt pubs }], k + 1)
  | _, _ => ([], k)

/-- The `if variant and disease` edge of `process_row`
(transform.py:403-415), the predicate chosen by comparing the raw row's
`interpretation_status` with the literal `"CAUSATIVE"`. -/
def vdSeg (v : Option VariantE) (d : Option DiseaseE) (status : Option String)
    (pubs : List String) (u : Nat → String) (k : Nat) : List Entity × Nat :=
  match v, d with
  | some ve, some de =>
    ([Entity.assoc { id := u k, subject := ve.id,
                     predicate := if status = some "CAUSATIVE" then CAUSES else CONTRIBUTES_TO,
                     object := de.id, kind := AssocKind.variantToDisease,
                     publications := pubsOpt pubs }], k + 1)
  | _, _ => ([], k)

/-- The per-phenotype emissions inside the loop of `process_row`
(transform.py:423-449): `if gene:` one association, `if disease:` one
association. -/
def phenoStep (g : Option GeneE) (d : Option DiseaseE) (pid : String)
    (pubs : List String) (u : Nat → String) (k : Nat) : List Entity × Nat :=
  let (es1, k1) :=
    match g with
    | some ge =>
      ([Entity.assoc { id := u k, subject := ge.id, predicate := HAS_PHENOTYPE,
                       object := pid, kind := AssocKind.caseToPhenotypicFeature,
                       publications := pubsOpt pubs }], k + 1)
    | none => ([], k)
  let (es2, k2) :=
    match d with
    | some de =>
      ([Entity.assoc { id := u k1, subject := de.id, predicate := HAS_PHENOTYPE,
                       object := pid, kind := AssocKind.diseaseToPhenotypicFeature,
                       publications := pubsOpt pubs }], k1 + 1)
    | none => ([], k1)
  (es1 ++ es2, k2)

/-- The phenotype loop of `process_row` (transform.py:417-449): per
phenotype with a truthy id, the `phenoStep` emissions; a non-mapping
element raises `AttributeError` at `phenotype.get("id")`, ending the
loop with the entities accumulated so far.  `k` is the index of the
next uuid drawn. -/
def phenoLoop (g : Option GeneE) (d : Option DiseaseE) (pubs : List String)
    (u : Nat → String) (k : Nat) : List PhenoItem → List Entity × Option PyErr
  | [] => ([], none)
  | PhenoItem.notDict :: _ => ([], some PyErr.attributeError)
  | PhenoItem.dict pid? :: rest =>
    if truthy pid? then
      let (es, k2) := phenoStep g d (orEmpty pid?) pubs u k
      let (tail, err) := phenoLoop g d pubs u k2 rest
      (es ++ tail, err)
    else phenoLoop g d pubs u k rest

/-- The body of `process_row`'s `try` block (transform.py:219-449):
the entity list built so far paired with the exception raised, if any. -/
def processRowE (row : Row) (u : Nat → String) : List Entity × Option PyErr :=
  let mrec := modelValidate row
  let pubs := publicationsOf mrec row
  let gene := geneOf mrec row
  let disease := diseaseOf mrec row
  let variant := variantOf mrec row
  let (s1, k1) := gdSeg gene disease pubs u
  let (s2, k2) := vgSeg variant gene pubs u k1
  let (s3, k3) := vdSeg variant disease row.interpretation_status pubs u k2
  let (s4, err) := phenoLoop gene disease pubs u k3 row.observed_phenotypes
  (nodesSeg gene disease variant ++ s1 ++ s2 ++ s3 ++ s4, err)

/-- `PhenopacketTransformer.process_row` (transform.py:208-455): the
whole body is wrapped in `try/except Exception`, which logs and falls
through to `return entities`, so the accumulated list is returned
whether or not an exception was raised. -/
def processRow (row : Row) (u : Nat → String) : List Entity :=
  (processRowE row u).1

/-- The `gene` sub-dictionary of a raw genomic interpretation
(`gi["gene"]`), with optional `value_id` and `symbol` keys. -/
structure RawGene where
  value_id : Option String
  symbol : Option String
deriving DecidableEq, Repr

/-- The `vcf_record` sub-dictionary of a raw variation descriptor. -/
structure RawVcf where
  genome_assembly : Option String
  chrom : Option String
  pos : Option String
  ref : Option String
  alt : Option String
deriving DecidableEq, Repr

/-- One element of a raw `expressions` list (`{"value": ...}`). -/
structure RawExpr where
  value : Option String
deriving DecidableEq, Repr

/-- The raw `allelic_state` value: a dict carrying a `label` key, or a
dict without one (`process_nested_objects` then stores the value as is). -/
inductive RawAState where
  | withLabel (label : String)
  | noLabel
deriving DecidableEq, Repr

/-- A raw `variation_descriptor` dictionary. -/
structure RawVD where
  id : Option String
  gene_context : Option RawGene
  vcf_record : Option RawVcf
  allelic_state : Option RawAState
  expressions : Option (List RawExpr)
deriving DecidableEq, Repr

/-- A raw `variant_interpretation` dictionary. -/
structure RawVI where
  variation_descriptor : Option RawVD
deriving DecidableEq, Repr

/-- A raw genomic-interpretation dictionary: presence of the `gene`,
`interpretation_status` and `variant_interpretation` keys. -/
structure GIrec where
  gene : Option RawGene
  interpretation_status : Option String
  variant_interpretation : Option RawVI
deriving DecidableEq, Repr

/-- A raw `diagnosis` dictionary (presence of `genomic_interpretations`). -/
structure Diag where
  genomic_interpretations : Option (List GIrec)
deriving DecidableEq, Repr

/-- A raw interpretation dictionary (presence of `diagnosis`). -/
structure Interp where
  diagnosis : Option Diag
deriving DecidableEq, Repr

/-- A derived gene entry `{"id", "symbol", "interpretation_status"}`
(models/phenopacket.py:389-393). -/
structure GeneInfo where
  id : String
  symbol : String
  interpretation_status : String
deriving DecidableEq, Repr

/-- A `VcfRecord` model instance as `process_nested_objects` builds it
(every field via `.get(key, "")`). -/
structure MVcf where
  genome_assembly : String
  chrom : String
  pos : String
  ref : String
  alt : String
deriving DecidableEq, Repr

/-- The value stored in `Variant.zygosity`: the `label` of a dict
`allelic_state`, or the raw non-labelled value itself. -/
inductive ZygVal where
  | label (s : String)
  | rawNoLabel
deriving DecidableEq, Repr

/-- A `Variant` model instance as `process_nested_objects` builds it
(models/phenopacket.py:396-430). -/
structure MVariant where
  id : String
  interpretation_status : String
  hgvs_expressions : List String
  gene_symbol : Option String
  gene_id : Option String
  vcf_record : Option MVcf
  zygosity : Option ZygVal
deriving DecidableEq, Repr

/-- The gene entries one genomic interpretation contributes
(models/phenopacket.py:388-394). -/
def giGenes (gi : GIrec) : List GeneInfo :=
  match gi.gene with
  | some g => [{ id := orEmpty g.value_id, symbol := orEmpty g.symbol,
                 interpretation_status := orEmpty gi.interpretation_status }]
  | none => []

/-- The `Variant` one genomic interpretation contributes when its
`variant_interpretation.variation_descriptor` is present
(models/phenopacket.py:396-430). -/
def giVariants (gi : GIrec) : List MVariant :=
  match gi.variant_interpretation with
  | some vi =>
    match vi.variation_descriptor with
    | some vd =>
      [{ id := orEmpty vd.id
         interpretation_status := orEmpty gi.interpretation_status
         hgvs_expressions := (vd.expressions.getD []).filterMap (fun e => e.value)
         gene_symbol := vd.gene_context.map (fun g => orEmpty g.symbol)
         gene_id := vd.gene_context.map (fun g => orEmpty g.value_id)
         vcf_record := vd.vcf_record.map (fun v =>
           { genome_assembly := orEmpty v.genome_assembly, chrom := orEmpty v.chrom,
             pos := orEmpty v.pos, ref := orEmpty v.ref, alt := orEmpty v.alt })
         zygosity := vd.allelic_state.map (fun a =>
           match a with
           | RawAState.withLabel l => ZygVal.label l
           | RawAState.noLabel => ZygVal.rawNoLabel) }]
    | none => []
  | none => []

/-- The genomic interpretations one interpretation exposes, empty when
`diagnosis` or its `genomic_interpretations` key is absent. -/
def interpGIs (it : Interp) : List GIrec :=
  match it.diagnosis with
  | some d => d.genomic_interpretations.getD []
  | none => []

/-- The gene entries the extraction loop of `process_nested_objects`
appends, in loop order. -/
def extractGenes (interps : List Interp) : List GeneInfo :=
  (interps.map (fun it => ((interpGIs it).map giGenes).flatten)).flatten

/-- The variants the extraction loop of `process_nested_objects`
appends, in loop order. -/
def extractVariants (interps : List Interp) : List MVariant :=
  (interps.map (fun it => ((interpGIs it).map giVariants).flatten)).flatten

/-- The slice of a `PhenopacketRecord` that
`process_nested_objects` reads and writes: the `genes`, `variants` and
`pmids` lists it may fill, the `interpretations` it fills them from, and
the ids of `meta_data.external_references` (`none` when `meta_data` is
absent). -/
structure PNOState where
  genes : List GeneInfo
  variants : List MVariant
  pmids : List String
  interpretations : List Interp
  meta_refs : Option (List String)
deriving DecidableEq, Repr

/-- The first block of `PhenopacketRecord.process_nested_objects`
(models/phenopacket.py:383-430): when both `genes` and `variants` are
empty and `interpretations` is non-empty, fill them from the
interpretation tree. -/
def pnoFill (s : PNOState) : PNOState :=
  if s.genes = [] ∧ s.variants = [] ∧ s.interpretations ≠ [] then
    { s with genes := extractGenes s.interpretations,
             variants := extractVariants s.interpretations }
  else s

/-- The second block of `process_nested_objects`
(models/phenopacket.py:432-435): when `pmids` is empty and `meta_data`
is present, fill it with the `PMID:`-prefixed external-reference ids. -/
def pnoPmids (s : PNOState) : PNOState :=
  if s.pmids = [] ∧ s.meta_refs.isSome then
    { s with pmids := pmidsFromRefs (s.meta_refs.getD []) }
  else s

/-- `PhenopacketRecord.process_nested_objects`
(models/phenopacket.py:379-437): the two blocks in source order. -/
def process_nested_objects (s : PNOState) : PNOState :=
  pnoPmids (pnoFill s)

/-- The `sex` value of a validated `Subject`
(models/phenopacket.py:272-294): the field validator turns a valid enum
string into a `Sex` member (`validEnum`) and keeps anything else as the
raw string (`rawString`). -/
inductive SexField where
  | validEnum (s : String)
  | rawString (s : String)
deriving DecidableEq, Repr

/-- A validated `Subject` as `transform_case` reads it. -/
structure MSubject where
  id : String
  sex : Option SexField
deriving DecidableEq, Repr

/-- A validated `PhenotypicFeature` as `transform_phenotypic_features`
reads it: `tid` is the `type.id` behind the `id` property, `onset` is
`onset.age.iso8601duration` when the whole chain is present. -/
structure MFeature where
  tid : String
  excluded : Bool
  onset : Option String
deriving DecidableEq, Repr

/-- A validated `Disease` as `transform_diseases` reads it. -/
structure MDisease where
  tid : String
  onset : Option String
deriving DecidableEq, Repr

/-- A validated `PhenopacketRecord` restricted to the fields
`process_record` reads. -/
structure MRecord where
  id : String
  subject : MSubject
  phenotypic_features : List MFeature
  diseases : List MDisease
  genes : List GeneInfo
  pmids : List String
deriving DecidableEq, Repr

/-- The raw `subject` dictionary handed to validation. -/
structure RawTSubj where
  id : Option String
  sex : Option SexField
deriving DecidableEq, Repr

/-- A raw record dictionary as handed to
`PhenopacketTransformer.parse_phenopacket`:
only `id`, `subject` and `subject.id` decide validation success. -/
structure RawT where
  id : Option String
  subject : Option RawTSubj
  phenotypic_features : List MFeature
  diseases : List MDisease
  genes : List GeneInfo
  variants : List MVariant
  pmids : List String
  interpretations : List Interp
  meta_refs : Option (List String)
deriving DecidableEq, Repr

/-- `PhenopacketTransformer.parse_phenopacket`
(transformer/phenopacket_transformer.py:50-91): validation fails (logged,
`None`) when `id`, `subject` or `subject.id` is missing; on success the
model's `process_nested_objects` validator has filled `genes` and
`pmids`. -/
def parse_phenopacket (raw : RawT) : Option MRecord :=
  match raw.id, raw.subject with
  | some i, some s =>
    match s.id with
    | some sid =>
      let st := process_nested_objects
        { genes := raw.genes, variants := raw.variants, pmids := raw.pmids,
          interpretations := raw.interpretations, meta_refs := raw.meta_refs }
      some { id := i, subject := { id := sid, sex := s.sex },
             phenotypic_features := raw.phenotypic_features,
             diseases := raw.diseases, genes := st.genes, pmids := st.pmids }
    | none => none
  | _, _ => none

/-- The association class of a transformer-module edge. -/
inductive TKind where
  | caseToPhenotypicFeature
  | caseToDisease
  | caseToGene
deriving DecidableEq, Repr

/-- An association edge as the transformer module builds it. -/
structure TAssoc where
  id : String
  subject : String
  predicate : String
  object : String
  kind : TKind
  onset_qualifier : Option String
  negated : Option Bool
  publications : Option (List String)
deriving DecidableEq, Repr

/-- An entity written by `process_record`: the Biolink `Case` or an
association. -/
inductive TEntity where
  | case (id : String) (name : String) (sex : String)
  | assoc (a : TAssoc)
deriving DecidableEq, Repr

/-- `PhenopacketTransformer.transform_case`
(transformer/phenopacket_transformer.py:93-118): `None` when the subject
id is empty; otherwise builds the `Case` with
`str(record.subject.sex.value)` — an expression that raises
`AttributeError` when `sex` is `None` or a plain (non-enum) string. -/
def transform_case (r : MRecord) : Except PyErr (Option TEntity) :=
  if r.subject.id = "" then Except.ok none
  else
    match r.subject.sex with
    | some (SexField.validEnum s) =>
      Except.ok (some (TEntity.case ("PPKT:" ++ r.id) r.subject.id s))
    | _ => Except.error PyErr.attributeError

/-- `PhenopacketTransformer.transform_phenotypic_features`
(transformer/phenopacket_transformer.py:120-171) on validated model
features: features without an id are skipped, every other feature yields
one association with `negated = excluded` and
`onset_qualifier = str(onset)` (empty string when the onset chain is
absent). -/
def transform_phenotypic_features (case_id : String) (features : List MFeature)
    (pmids : List String) : List TAssoc :=
  features.filterMap (fun f =>
    if f.tid = "" then none
    else some { id := "PPKT:" ++ case_id, subject := case_id,
                predicate := "biolink:has_phenotype", object := f.tid,
                kind := TKind.caseToPhenotypicFeature,
                onset_qualifier := some (f.onset.getD ""),
                negated := some f.excluded,
                publications := pubsOpt pmids })

/-- `PhenopacketTransformer.transform_diseases`
(transformer/phenopacket_transformer.py:173-228) on validated model
diseases. -/
def transform_diseases (case_id : String) (diseases : List MDisease)
    (pmids : List String) : List TAssoc :=
  diseases.filterMap (fun d =>
    if d.tid = "" then none
    else some { id := "PPKT:" ++ case_id, subject := case_id,
                predicate := "biolink:has_disease", object := d.tid,
                kind := TKind.caseToDisease,
                onset_qualifier := some (d.onset.getD ""),
                negated := none,
                publications := pubsOpt pmids })

/-- `PhenopacketTransformer.transform_genes`
(transformer/phenopacket_transformer.py:230-264). -/
def transform_genes (case_id : String) (genes : List GeneInfo)
    (pmids : List String) : List TAssoc :=
  genes.filterMap (fun g =>
    if g.id = "" then none
    else some { id := "PPKT:" ++ case_id, subject := case_id,
                predicate := "biolink:has_gene", object := g.id,
                kind := TKind.caseToGene,
                onset_qualifier := none,
                negated := none,
                publications := pubsOpt pmids })

/-- The `id` attribute of a transformer entity (`case.id`). -/
def tentityId : TEntity → String
  | TEntity.case i _ _ => i
  | TEntity.assoc a => a.id

/-- `PhenopacketTransformer.process_record`
(transformer/phenopacket_transformer.py:266-308): validation failure or a
`None` case yields the empty entity list; an exception inside
`transform_case` propagates (there is no `try` here). -/
def process_record (raw : RawT) : Except PyErr (List TEntity) :=
  match parse_phenopacket raw with
  | none => Except.ok []
  | some recd =>
    match transform_case recd with
    | Except.error e => Except.error e
    | Except.ok none => Except.ok []
    | Except.ok (some c) =>
      let case_id := tentityId c
      Except.ok (c ::
        ((if recd.phenotypic_features = [] then []
          else (transform_phenotypic_features case_id recd.phenotypic_features
            recd.pmids).map TEntity.assoc) ++
         (if recd.diseases = [] then []
          else (transform_diseases case_id recd.diseases recd.pmids).map TEntity.assoc) ++
         (if recd.genes = [] then []
          else (transform_genes case_id recd.genes recd.pmids).map TEntity.assoc)))

/-- One line of a JSONL stream: either text `json.loads` rejects, or a
well-formed record dictionary. -/
inductive JsonlLine where
  | malformed
  | wellFormed (raw : RawT)
deriving DecidableEq, Repr

/-- `PhenopacketTransformer.process_jsonl_line`
(transformer/phenopacket_transformer.py:310-326): the `except Exception
as e: raise e` handler re-raises, so both a JSON decode error and any
exception out of `process_record` propagate to the caller. -/
def process_jsonl_line (line : JsonlLine) : Except PyErr (List TEntity) :=
  match line with
  | JsonlLine.malformed => Except.error PyErr.jsonDecodeError
  | JsonlLine.wellFormed raw => process_record raw

/-- The five canonical interpretation-status strings
(models/interpretation.py:16-23). -/
def canonicalStatuses : List String :=
  ["UNKNOWN_STATUS", "REJECTED", "CANDIDATE", "CONTRIBUTORY", "CAUSATIVE"]

/-- The status table of `PhenopacketParser._process_special_fields`
(parser/phenopacket_parser.py:238-251): `status_mapping.get(str(status),
str(status))`, unmapped values pass through unchanged. -/
def statusMapSpecial (s : String) : String :=
  if s = "0" then "UNKNOWN_STATUS"
  else if s = "1" then "REJECTED"
  else if s = "2" then "CANDIDATE"
  else if s = "3" then "CONTRIBUTORY"
  else if s = "4" then "CAUSATIVE"
  else s

/-- `InterpretationStatus.from_proto_value`
(models/interpretation.py:25-38): an already-canonical string is
returned as is; otherwise the numeric table applies, defaulting to
`UNKNOWN_STATUS`. -/
def from_proto_value (s : String) : String :=
  if s ∈ canonicalStatuses then s
  else if s = "0" then "UNKNOWN_STATUS"
  else if s = "1" then "REJECTED"
  else if s = "2" then "CANDIDATE"
  else if s = "3" then "CONTRIBUTORY"
  else if s = "4" then "CAUSATIVE"
  else "UNKNOWN_STATUS"

/-- The if-chain of `PhenopacketParser.parse_phenopacket`
(parser.py:67-82), which maps the legacy numeric codes itself. -/
def statusMapLegacy (s : String) : String :=
  if s = "4" then "CAUSATIVE"
  else if s = "3" then "CONTRIBUTORY"
  else if s = "2" then "UNCERTAINTY"
  else if s = "1" then "REJECTED"
  else if s = "0" then "UNKNOWN_STATUS"
  else s

/-- A raw external-reference dictionary (`"id" in ref` is modelled by
the option). -/
structure RawRef where
  id : Option String
  description : Option String
deriving DecidableEq, Repr

/-- One iteration of the external-reference loop of
`PhenopacketParser.phenopacket_to_jsonl_dict`
(parser/phenopacket_parser.py:201-204): the reference is appended to
`external_references`; its id is appended to `pmids` when the `id` key
is present and starts with `PMID:`. -/
def collectStep (acc : List RawRef × List String) (ref : RawRef) :
    List RawRef × List String :=
  (acc.1 ++ [ref],
   match ref.id with
   | some i => if isPmid i then acc.2 ++ [i] else acc.2
   | none => acc.2)

/-- The whole external-reference loop
(parser/phenopacket_parser.py:197-207), starting from two empty lists. -/
def collectRefs (refs : List RawRef) : List RawRef × List String :=
  refs.foldl collectStep ([], [])

/-- The observed/excluded split of `phenopacket_to_jsonl_dict`
(parser/phenopacket_parser.py:100-112): `feature.get("excluded", False)`
decides the side. -/
structure RawFeature where
  fid : Option String
  excluded : Option Bool
deriving DecidableEq, Repr

/-- One iteration of the split loop: the feature joins the excluded
side when its `excluded` flag (default `False`) is set. -/
def splitStep (acc : List RawFeature × List RawFeature) (f : RawFeature) :
    List RawFeature × List RawFeature :=
  if f.excluded.getD false then (acc.1, acc.2 ++ [f]) else (acc.1 ++ [f], acc.2)

/-- The split loop itself: `(observed, excluded)`. -/
def splitPhenotypes (features : List RawFeature) : List RawFeature × List RawFeature :=
  features.foldl splitStep ([], [])

/-- A flat row with every field absent, basis for concrete test rows. -/
def emptyRow : Row :=
  { id := none, subject := none, gene_id := none, gene_symbol := none,
    disease_id := none, disease_label := none, variant_id := none,
    chromosome := none, position := none, reference := none, alternate := none,
    variant_hgvs := [], interpretation_status := none, pmids := [],
    observed_phenotypes := [], meta_refs := [] }

/-- A validating row carrying only coordinates: no explicit variant id,
chromosome `chr9`, position `138650634`, ref `C`, alt `G`. -/
def coordRow : Row :=
  { emptyRow with
      id := some "phenopacket.1"
      subject := some { id := some "patient:1" }
      chromosome := some "chr9"
      position := some "138650634"
      reference := some "C"
      alternate := some "G" }

/-- A row with a gene and a disease (a gene-disease edge is emitted). -/
def geneDiseaseRow : Row :=
  { emptyRow with
      gene_id := some "HGNC:18865"
      gene_symbol := some "KCNT1"
      disease_id := some "MONDO:0100038"
      disease_label := some "DEE"
      interpretation_status := some "CAUSATIVE" }

/-- A row with no case id and no subject, but with gene fields. -/
def subjectlessGeneRow : Row :=
  { emptyRow with
      gene_id := some "HGNC:10585"
      gene_symbol := some "SCN1A" }

/-- A row whose phenotype list holds a non-mapping element, so the
phenotype loop of `process_row` raises after the gene, disease and
gene-disease entities were appended. -/
def midFailureRow : Row :=
  { emptyRow with
      gene_id := some "HGNC:18865"
      gene_symbol := some "KCNT1"
      disease_id := some "MONDO:0100038"
      disease_label := some "DEE"
      observed_phenotypes := [PhenoItem.notDict] }

/-- A row with variant coordinates, a disease and a CAUSATIVE status. -/
def causativeRow : Row :=
  { emptyRow with
      disease_id := some "MONDO:0100038"
      disease_label := some "DEE"
      variant_id := some "var_1"
      interpretation_status := some "CAUSATIVE" }

/-- A raw typed record with a subject that carries no `sex` value, on
which `transform_case` raises `AttributeError` at
`record.subject.sex.value`. -/
def sexlessRaw : RawT :=
  { id := some "phenopacket.2", subject := some { id := some "patient:2", sex := none },
    phenotypic_features := [], diseases := [], genes := [], variants := [],
    pmids := [], interpretations := [], meta_refs := none }

/-- A raw typed record with no `id` key at all. -/
def idlessRaw : RawT :=
  { id := none, subject := some { id := some "patient:3", sex := some (SexField.validEnum "MALE") },
    phenotypic_features := [], diseases := [], genes := [], variants := [],
    pmids := [], interpretations := [], meta_refs := none }

/-- The pmid a reference contributes in the collection loop of
`phenopacket_to_jsonl_dict`: its id when present and `PMID:`-prefixed. -/
def pmidOf (r : RawRef) : Option String :=
  match r.id with
  | some i => if isPmid i then some i else none
  | none => none

/-- The fill block of `process_nested_objects` is idempotent: a second
run either finds non-empty lists (and skips) or recomputes the same
empty extraction. -/
lemma pnoFill_idem (s : PNOState) : pnoFill (pnoFill s) = pnoFill s := by
  obtain ⟨g, v, p, i, m⟩ := s
  unfold pnoFill
  split_ifs <;> simp_all

/-- The pmid block of `process_nested_objects` is idempotent. -/
lemma pnoPmids_idem (s : PNOState) : pnoPmids (pnoPmids s) = pnoPmids s := by
  obtain ⟨g, v, p, i, m⟩ := s
  unfold pnoPmids
  split_ifs <;> simp_all

/-- The two blocks of `process_nested_objects` touch disjoint fields,
so they commute. -/
lemma pnoFill_pnoPmids (s : PNOState) : pnoFill (pnoPmids s) = pnoPmids (pnoFill s) := by
  obtain ⟨g, v, p, i, m⟩ := s
  unfold pnoFill pnoPmids
  split_ifs <;> simp_all

/-- C7: the derivation step `process_nested_objects` is idempotent: run
a second time it leaves the genes, variants and pmids lists (and the
whole record slice) exactly as the first run left them. -/
theorem c7_process_nested_objects_idempotent (s : PNOState) :
    process_nested_objects (process_nested_objects s) = process_nested_objects s := by
  unfold process_nested_objects
  rw [pnoFill_pnoPmids, pnoFill_idem, pnoPmids_idem]

/-- Entities of the node segment of `process_row` are the gene, disease
and variant nodes of the resolved options. -/
lemma mem_nodesSeg (g : Option GeneE) (d : Option DiseaseE) (v : Option VariantE)
    (e : Entity) (h : e ∈ nodesSeg g d v) :
    (∃ ge, e = Entity.gene ge ∧ g = some ge) ∨
    (∃ de, e = Entity.disease de ∧ d = some de) ∨
    (∃ ve, e = Entity.variant ve ∧ v = some ve) := by
  cases g <;> cases d <;> cases v <;> simp_all [nodesSeg]

/-- Entities of the gene-disease segment are associations of kind
`GeneToDiseaseAssociation`. -/
lemma mem_gdSeg (g : Option GeneE) (d : Option DiseaseE) (pubs : List String)
    (u : Nat → String) (e : Entity) (h : e ∈ (gdSeg g d pubs u).1) :
    ∃ a, e = Entity.assoc a ∧ a.kind = AssocKind.geneToDisease := by
  cases g <;> cases d <;> simp_all [gdSeg]

/-- Entities of the variant-gene segment are associations of kind
`VariantToGeneAssociation`. -/
lemma mem_vgSeg (v : Option VariantE) (g : Option GeneE) (pubs : List String)
    (u : Nat → String) (k : Nat) (e : Entity) (h : e ∈ (vgSeg v g pubs u k).1) :
    ∃ a, e = Entity.assoc a ∧ a.kind = AssocKind.variantToGene := by
  cases v <;> cases g <;> simp_all [vgSeg]

/-- Entities of the variant-disease segment are associations of kind
`VariantToDiseaseAssociation`, predicate chosen by the CAUSATIVE test. -/
lemma mem_vdSeg (v : Option VariantE) (d : Option DiseaseE) (status : Option String)
    (pubs : List String) (u : Nat → String) (k : Nat) (e : Entity)
    (h : e ∈ (vdSeg v d status pubs u k).1) :
    ∃ a, e = Entity.assoc a ∧ a.kind = AssocKind.variantToDisease ∧
      a.predicate = if status = some "CAUSATIVE" then CAUSES else CONTRIBUTES_TO := by
  cases v <;> cases d <;> simp_all [vdSeg]

/-- Entities of one phenotype step are phenotype associations. -/
lemma mem_phenoStep (g : Option GeneE) (d : Option DiseaseE) (pid : String)
    (pubs : List String) (u : Nat → String) (k : Nat) (e : Entity)
    (h : e ∈ (phenoStep g d pid pubs u k).1) :
    ∃ a, e = Entity.assoc a ∧
      (a.kind = AssocKind.caseToPhenotypicFeature ∨
       a.kind = AssocKind.diseaseToPhenotypicFeature) := by
  cases g <;> cases d <;> simp_all [phenoStep]
  aesop

/-- Entities of the phenotype loop are phenotype associations. -/
lemma mem_phenoLoop (g : Option GeneE) (d : Option DiseaseE) (pubs : List String)
    (u : Nat → String) (items : List PhenoItem) :
    ∀ (k : Nat) (e : Entity), e ∈ (phenoLoop g d pubs u k items).1 →
      ∃ a, e = Entity.assoc a ∧
        (a.kind = AssocKind.caseToPhenotypicFeature ∨
         a.kind = AssocKind.diseaseToPhenotypicFeature) := by
  induction items with
  | nil => intro k e h; simp [phenoLoop] at h
  | cons item rest ih =>
    intro k e h
    cases item with
    | notDict => simp [phenoLoop] at h
    | dict pid? =>
      rw [phenoLoop] at h
      by_cases hp : truthy pid?
      · simp only [hp, if_true] at h
        rcases List.mem_append.mp h with h1 | h2
        · exact mem_phenoStep _ _ _ _ _ _ _ h1
        · exact ih _ _ h2
      · simp only [hp, if_false] at h
        exact ih _ _ h

/-- The entity list of `process_row` written out as its five segments
(definitional). -/
lemma processRow_split (row : Row) (u : Nat → String) :
    processRow row u =
      nodesSeg (geneOf (modelValidate row) row) (diseaseOf (modelValidate row) row)
          (variantOf (modelValidate row) row) ++
        (gdSeg (geneOf (modelValidate row) row) (diseaseOf (modelValidate row) row)
          (publicationsOf (modelValidate row) row) u).1 ++
        (vgSeg (variantOf (modelValidate row) row) (geneOf (modelValidate row) row)
          (publicationsOf (modelValidate row) row) u
          (gdSeg (geneOf (modelValidate row) row) (diseaseOf (modelValidate row) row)
            (publicationsOf (modelValidate row) row) u).2).1 ++
        (vdSeg (variantOf (modelValidate row) row) (diseaseOf (modelValidate row) row)
          row.interpretation_status (publicationsOf (modelValidate row) row) u
          (vgSeg (variantOf (modelValidate row) row) (geneOf (modelValidate row) row)
            (publicationsOf (modelValidate row) row) u
            (gdSeg (geneOf (modelValidate row) row) (diseaseOf (modelValidate row) row)
              (publicationsOf (modelValidate row) row) u).2).2).1 ++
        (phenoLoop (geneOf (modelValidate row) row) (diseaseOf (modelValidate row) row)
          (publicationsOf (modelValidate row) row) u
          (vdSeg (variantOf (modelValidate row) row) (diseaseOf (modelValidate row) row)
            row.interpretation_status (publicationsOf (modelValidate row) row) u
            (vgSeg (variantOf (modelValidate row) row) (geneOf (modelValidate row) row)
              (publicationsOf (modelValidate row) row) u
              (gdSeg (geneOf (modelValidate row) row) (diseaseOf (modelValidate row) row)
                (publicationsOf (modelValidate row) row) u).2).2).2
          row.observed_phenotypes).1 := rfl

/-- When both the variant and the disease option resolve, the
variant-disease segment holds the edge with the CAUSATIVE-tested
predicate. -/
lemma vdSeg_exists (v : Option VariantE) (d : Option DiseaseE) (status : Option String)
    (pubs : List String) (u : Nat → String) (k : Nat) (ve : VariantE) (de : DiseaseE)
    (hv : v = some ve) (hd : d = some de) :
    ∃ a, Entity.assoc a ∈ (vdSeg v d status pubs u k).1 ∧
      a.kind = AssocKind.variantToDisease ∧
      a.predicate = if status = some "CAUSATIVE" then CAUSES else CONTRIBUTES_TO := by
  subst hv hd
  refine ⟨{ id := u k, subject := ve.id,
            predicate := if status = some "CAUSATIVE" then CAUSES else CONTRIBUTES_TO,
            object := de.id, kind := AssocKind.variantToDisease,
            publications := pubsOpt pubs }, ?_, rfl, rfl⟩
  simp [vdSeg]

/-- A resolved variant option is emitted as a variant node. -/
lemma variant_mem_of (row : Row) (u : Nat → String) (v : VariantE)
    (h : variantOf (modelValidate row) row = some v) :
    Entity.variant v ∈ processRow row u := by
  rw [processRow_split]
  simp only [List.mem_append]
  refine Or.inl (Or.inl (Or.inl (Or.inl ?_)))
  unfold nodesSeg
  rw [h]
  cases geneOf (modelValidate row) row <;> cases diseaseOf (modelValidate row) row <;> simp

/-- C1: whenever `process_row` emits both a variant entity and a disease
entity, it emits a Variant-to-Disease association, every such
association's predicate is `biolink:causes` exactly when the row's raw
`interpretation_status` equals `"CAUSATIVE"`, and is
`biolink:contributes_to` for every other value. -/
theorem c1_variant_disease_predicate_iff_causative (row : Row) (u : Nat → String)
    (ve : VariantE) (de : DiseaseE)
    (hv : Entity.variant ve ∈ processRow row u)
    (hd : Entity.disease de ∈ processRow row u) :
    (∃ a : Assoc, Entity.assoc a ∈ processRow row u ∧
       a.kind = AssocKind.variantToDisease ∧
       a.predicate = (if row.interpretation_status = some "CAUSATIVE"
                      then CAUSES else CONTRIBUTES_TO)) ∧
    ∀ a : Assoc, Entity.assoc a ∈ processRow row u →
      a.kind = AssocKind.variantToDisease →
      a.predicate = (if row.interpretation_status = some "CAUSATIVE"
                     then CAUSES else CONTRIBUTES_TO) := by
  have hv' : variantOf (modelValidate row) row = some ve := by
    rw [processRow_split] at hv
    simp only [List.mem_append] at hv
    rcases hv with (((h | h) | h) | h) | h
    · rcases mem_nodesSeg _ _ _ _ h with ⟨ge, he, _⟩ | ⟨de2, he, _⟩ | ⟨ve2, he, hs⟩ <;>
        simp_all
    · rcases mem_gdSeg _ _ _ _ _ h with ⟨a2, he, _⟩; simp_all
    · rcases mem_vgSeg _ _ _ _ _ _ h with ⟨a2, he, _⟩; simp_all
    · rcases mem_vdSeg _ _ _ _ _ _ _ h with ⟨a2, he, _, _⟩; simp_all
    · rcases mem_phenoLoop _ _ _ _ _ _ _ h with ⟨a2, he, _⟩; simp_all
  have hd' : diseaseOf (modelValidate row) row = some de := by
    rw [processRow_split] at hd
    simp only [List.mem_append] at hd
    rcases hd with (((h | h) | h) | h) | h
    · rcases mem_nodesSeg _ _ _ _ h with ⟨ge, he, _⟩ | ⟨de2, he, hs⟩ | ⟨ve2, he, _⟩ <;>
        simp_all
    · rcases mem_gdSeg _ _ _ _ _ h with ⟨a2, he, _⟩; simp_all
    · rcases mem_vgSeg _ _ _ _ _ _ h with ⟨a2, he, _⟩; simp_all
    · rcases mem_vdSeg _ _ _ _ _ _ _ h with ⟨a2, he, _, _⟩; simp_all
    · rcases mem_phenoLoop _ _ _ _ _ _ _ h with ⟨a2, he, _⟩; simp_all
  constructor
  · obtain ⟨a, ha, hk, hp⟩ := vdSeg_exists _ _ row.interpretation_status
      (publicationsOf (modelValidate row) row) u _ ve de hv' hd'
    refine ⟨a, ?_, hk, hp⟩
    rw [processRow_split]
    simp only [List.mem_append]
    exact Or.inl (Or.inr ha)
  · intro a ha hk
    rw [processRow_split] at ha
    simp only [List.mem_append] at ha
    rcases ha with (((h | h) | h) | h) | h
    · rcases mem_nodesSeg _ _ _ _ h with ⟨ge, he, _⟩ | ⟨de2, he, _⟩ | ⟨ve2, he, _⟩ <;>
        simp_all
    · rcases mem_gdSeg _ _ _ _ _ h with ⟨a2, he, hk2⟩; simp_all
    · rcases mem_vgSeg _ _ _ _ _ _ h with ⟨a2, he, hk2⟩; simp_all
    · rcases mem_vdSeg _ _ _ _ _ _ _ h with ⟨a2, he, hk2, hp2⟩
      cases he
      exact hp2
    · rcases mem_phenoLoop _ _ _ _ _ _ _ h with ⟨a2, he, hk2⟩
      rcases hk2 with hk2 | hk2 <;> simp_all

/-- C1 witness: on a concrete CAUSATIVE row emitting a variant and a
disease, the Variant-to-Disease edge exists and every such edge carries
`biolink:causes`. -/
theorem c1_variant_disease_predicate_iff_causative_witness :
    (Entity.variant { id := "var_1", name := none, hasGene := none, xref := none }
        ∈ processRow causativeRow (fun _ => "u0")) ∧
    (Entity.disease { id := "MONDO:0100038", name := "DEE" }
        ∈ processRow causativeRow (fun _ => "u0")) ∧
    ((∃ a : Assoc, Entity.assoc a ∈ processRow causativeRow (fun _ => "u0") ∧
        a.kind = AssocKind.variantToDisease ∧
        a.predicate = (if causativeRow.interpretation_status = some "CAUSATIVE"
                       then CAUSES else CONTRIBUTES_TO)) ∧
     ∀ a : Assoc, Entity.assoc a ∈ processRow causativeRow (fun _ => "u0") →
        a.kind = AssocKind.variantToDisease →
        a.predicate = (if causativeRow.interpretation_status = some "CAUSATIVE"
                       then CAUSES else CONTRIBUTES_TO)) :=
  ⟨by decide, by decide,
   c1_variant_disease_predicate_iff_causative causativeRow (fun _ => "u0")
     { id := "var_1", name := none, hasGene := none, xref := none }
     { id := "MONDO:0100038", name := "DEE" } (by decide) (by decide)⟩

/-- C2 counterexample: on a validating row with chromosome `chr9`,
position `138650634`, ref `C`, alt `G` and no explicit variant id, the
mapper synthesizes `PPKT:9-138650634-C-G`, not the bare
`9-138650634-C-G` the claim states. -/
theorem c2_variant_id_ppkt_prefix_counterexample :
    processRow coordRow (fun _ => "u0") =
      [Entity.variant { id := "PPKT:9-138650634-C-G",
                        name := some "PPKT:9-138650634-C-G",
                        hasGene := none, xref := none }] ∧
    "PPKT:9-138650634-C-G" ≠ "9-138650634-C-G" := by
  decide

/-- C2 amended: on the validated-record branch the synthesized variant
id is exactly `"PPKT:" ++ chromosome-with-chr-removed ++ "-" ++ position
++ "-" ++ reference ++ "-" ++ alternate` with reference and alternate
defaulting to the empty string, and the variant node carrying it is
emitted; on the dict fallback branch (`transform_variant`) the id is the
same string without the `PPKT:` prefix, and requires chromosome,
position, reference and alternate all non-empty.  Both derivations are
functions of those fields alone, hence deterministic. -/
theorem c2_variant_id_derivation_amended :
    (∀ (row : Row) (u : Nat → String) (r : PRecord),
       modelValidate row = some r → truthy r.variant_id = false →
       truthy r.chromosome = true → truthy r.position = true →
       ∃ v : VariantE, Entity.variant v ∈ processRow row u ∧
         v.id = "PPKT:" ++ stripChr (orEmpty r.chromosome) ++ "-" ++ orEmpty r.position ++
           "-" ++ orEmpty r.reference ++ "-" ++ orEmpty r.alternate) ∧
    (∀ row : Row, truthy row.variant_id = false → truthy row.chromosome = true →
       truthy row.position = true → truthy row.reference = true →
       truthy row.alternate = true →
       (transform_variant row).map VariantE.id =
         some (stripChr (orEmpty row.chromosome) ++ "-" ++ orEmpty row.position ++ "-" ++
           orEmpty row.reference ++ "-" ++ orEmpty row.alternate)) := by
  constructor
  · intro row u r hval hvid hc hp
    have hrv : recordVariantId r =
        some ("PPKT:" ++ stripChr (orEmpty r.chromosome) ++ "-" ++ orEmpty r.position ++
          "-" ++ orEmpty r.reference ++ "-" ++ orEmpty r.alternate) := by
      unfold recordVariantId
      rw [hvid, hc, hp]
      simp
    have hvar : variantOf (modelValidate row) row =
        some { id := "PPKT:" ++ stripChr (orEmpty r.chromosome) ++ "-" ++
                 orEmpty r.position ++ "-" ++ orEmpty r.reference ++ "-" ++
                 orEmpty r.alternate,
               name := some ("PPKT:" ++ stripChr (orEmpty r.chromosome) ++ "-" ++
                 orEmpty r.position ++ "-" ++ orEmpty r.reference ++ "-" ++
                 orEmpty r.alternate),
               hasGene := if truthy r.gene_id then some (orEmpty r.gene_id) else none,
               xref := if r.variant_hgvs = [] then none else some r.variant_hgvs } := by
      rw [hval]
      simp only [variantOf]
      rw [hrv]
    exact ⟨_, variant_mem_of row u _ hvar, rfl⟩
  · intro row hvid hc hp hr ha
    unfold transform_variant
    rw [hvid, hc, hp, hr, ha]
    simp

/-- C2 witness: the amended derivation applied to the concrete
coordinate row. -/
theorem c2_variant_id_derivation_amended_witness :
    ∃ v : VariantE, Entity.variant v ∈ processRow coordRow (fun _ => "u0") ∧
      v.id = "PPKT:" ++ stripChr (orEmpty (some "chr9")) ++ "-" ++ orEmpty (some "138650634") ++
        "-" ++ orEmpty (some "C") ++ "-" ++ orEmpty (some "G") :=
  c2_variant_id_derivation_amended.1 coordRow (fun _ => "u0")
    { gene_id := none, gene_symbol := none, disease_id := none, disease_label := none,
      variant_id := none, chromosome := some "chr9", position := some "138650634",
      reference := some "C", alternate := some "G", variant_hgvs := [], pmids := [] }
    (by decide) (by decide) (by decide) (by decide)

/-- C3: on one and the same input row the edge id `process_row` writes
is whatever `uuid.uuid4()` returns: two runs drawing different uuids
produce different edge ids, so the edge id is not a function of the
record's content. -/
theorem c3_edge_id_depends_on_uuid_stream :
    processRow geneDiseaseRow (fun _ => "run1-uuid") ≠
      processRow geneDiseaseRow (fun _ => "run2-uuid") ∧
    Entity.assoc { id := "run1-uuid", subject := "HGNC:18865",
                   predicate := GENE_ASSOCIATED_WITH_CONDITION, object := "MONDO:0100038",
                   kind := AssocKind.geneToDisease, publications := none }
      ∈ processRow geneDiseaseRow (fun _ => "run1-uuid") ∧
    Entity.assoc { id := "run2-uuid", subject := "HGNC:18865",
                   predicate := GENE_ASSOCIATED_WITH_CONDITION, object := "MONDO:0100038",
                   kind := AssocKind.geneToDisease, publications := none }
      ∈ processRow geneDiseaseRow (fun _ => "run2-uuid") := by
  decide

/-- C4 counterexample: a raw row with no case id and no subject at all,
but with gene fields, is not rejected by `process_row`: validation fails
and the dictionary fallback still emits a Gene node. -/
theorem c4_subjectless_row_emits_counterexample :
    processRow subjectlessGeneRow (fun _ => "u0") =
      [Entity.gene { id := "HGNC:10585", symbol := "SCN1A" }] ∧
    processRow subjectlessGeneRow (fun _ => "u0") ≠ [] := by
  decide

/-- C4 amended: the typed-record pipeline `process_record` does reject a
record whose case id is missing, whose subject is missing, whose
subject id is missing or whose subject id is empty: it returns the
empty entity list; the flat-row `process_row`, by contrast, falls back
to dictionary mapping (see the counterexample). -/
theorem c4_process_record_rejects_missing_ids (raw : RawT)
    (h : raw.id = none ∨ Option.bind raw.subject RawTSubj.id = none ∨
         Option.bind raw.subject RawTSubj.id = some "") :
    process_record raw = Except.ok [] := by
  obtain ⟨i, sub, pf, ds, gs, vs, pm, it, mr⟩ := raw
  rcases h with h | h | h
  · simp only at h
    subst h
    rfl
  · simp only at h
    cases sub with
    | none => cases i <;> rfl
    | some s =>
      obtain ⟨si, sx⟩ := s
      cases hsi : si with
      | none =>
        subst hsi
        cases i <;> rfl
      | some v => simp [Option.bind, hsi] at h
  · simp only at h
    cases sub with
    | none => simp [Option.bind] at h
    | some s =>
      obtain ⟨si, sx⟩ := s
      cases hsi : si with
      | none => simp [Option.bind, hsi] at h
      | some v =>
        simp only [Option.bind, hsi] at h
        injection h with h
        subst h
        subst hsi
        cases i <;> simp [process_record, parse_phenopacket, transform_case]

/-- C4 witness: the rejection applied to the concrete record without an
`id` key. -/
theorem c4_process_record_rejects_missing_ids_witness :
    process_record idlessRaw = Except.ok [] :=
  c4_process_record_rejects_missing_ids idlessRaw (Or.inl rfl)

/-- C5: the table of `_process_special_fields` and
`InterpretationStatus.from_proto_value` both map the legacy codes 0..4
to UNKNOWN_STATUS, REJECTED, CANDIDATE, CONTRIBUTORY, CAUSATIVE; but the
if-chain of `parser.py::parse_phenopacket` maps `"2"` to `"UNCERTAINTY"`,
a string outside the repository's own canonical vocabulary. -/
theorem c5_status_tables_agree_except_legacy_two :
    statusMapSpecial "0" = "UNKNOWN_STATUS" ∧ statusMapSpecial "1" = "REJECTED" ∧
    statusMapSpecial "2" = "CANDIDATE" ∧ statusMapSpecial "3" = "CONTRIBUTORY" ∧
    statusMapSpecial "4" = "CAUSATIVE" ∧
    from_proto_value "0" = "UNKNOWN_STATUS" ∧ from_proto_value "1" = "REJECTED" ∧
    from_proto_value "2" = "CANDIDATE" ∧ from_proto_value "3" = "CONTRIBUTORY" ∧
    from_proto_value "4" = "CAUSATIVE" ∧
    statusMapLegacy "2" = "UNCERTAINTY" ∧ statusMapLegacy "2" ∉ canonicalStatuses := by
  decide

/-- C6 counterexample: two identical `PMID:` references yield a `pmids`
list with a duplicate — the collection is not duplicate-free. -/
theorem c6_pmids_duplicates_counterexample :
    (collectRefs [{ id := some "PMID:111", description := none },
                  { id := some "PMID:111", description := none }]).2 =
      ["PMID:111", "PMID:111"] ∧
    ¬ ((collectRefs [{ id := some "PMID:111", description := none },
                     { id := some "PMID:111", description := none }]).2.Nodup) := by
  decide

/-- The external-reference loop from an arbitrary accumulator pair. -/
lemma collectRefs_go (refs : List RawRef) : ∀ (a : List RawRef) (p : List String),
    refs.foldl collectStep (a, p) = (a ++ refs, p ++ refs.filterMap pmidOf) := by
  induction refs with
  | nil => intro a p; simp
  | cons r rest ih =>
    intro a p
    rw [List.foldl_cons, List.filterMap_cons]
    cases hr : r.id with
    | none => rw [collectStep]; simp [hr, pmidOf, ih]
    | some i =>
      by_cases hi : isPmid i
      · rw [collectStep]; simp [hr, hi, pmidOf, ih]
      · rw [collectStep]; simp [hr, hi, pmidOf, ih]

/-- C6 amended: `pmids` holds exactly the ids beginning with `PMID:`,
one entry per matching reference occurrence, in first-seen order
(duplicates in the input are kept, not removed), and every reference,
`PMID:`-prefixed or not, is retained in `external_references`. -/
theorem c6_pmids_first_seen_order_amended (refs : List RawRef) :
    (collectRefs refs).1 = refs ∧ (collectRefs refs).2 = refs.filterMap pmidOf := by
  unfold collectRefs
  rw [collectRefs_go]
  simp

/-- C8 counterexample: a phenotypic feature marked `excluded=true` whose
term id is empty is dropped by `transform_phenotypic_features`: no
association at all is produced for it, in particular none with
`negated=true`. -/
theorem c8_excluded_feature_dropped_counterexample :
    transform_phenotypic_features "patient:1"
      [{ tid := "", excluded := true, onset := none }] [] = [] ∧
    ¬ (∃ a, a ∈ transform_phenotypic_features "patient:1"
          [{ tid := "", excluded := true, onset := none }] [] ∧
        a.negated = some true) := by
  decide

/-- The split loop from an arbitrary accumulator pair. -/
lemma splitPhenotypes_go (fs : List RawFeature) : ∀ (a b : List RawFeature),
    fs.foldl splitStep (a, b) =
      (a ++ fs.filter (fun f => !(f.excluded.getD false)),
       b ++ fs.filter (fun f => f.excluded.getD false)) := by
  induction fs with
  | nil => intro a b; simp
  | cons f rest ih =>
    intro a b
    rw [List.foldl_cons]
    by_cases hf : f.excluded.getD false
    · rw [splitStep]; simp [hf, ih]
    · rw [splitStep]; simp [hf, ih]

/-- C8 amended: the observed/excluded split is a partition by the
`excluded` flag with default `False` (an excluded feature is placed in
the excluded list and never in the observed list), and every excluded
feature with a non-empty term id yields a Case-to-Phenotype association
with `negated=true`; a feature without a term id yields no association
(see the counterexample). -/
theorem c8_excluded_phenotype_amended :
    (∀ features : List RawFeature,
       splitPhenotypes features =
         (features.filter (fun f => !(f.excluded.getD false)),
          features.filter (fun f => f.excluded.getD false))) ∧
    (∀ (features : List RawFeature) (f : RawFeature), f ∈ features →
       f.excluded = some true →
       f ∈ (splitPhenotypes features).2 ∧ f ∉ (splitPhenotypes features).1) ∧
    (∀ (case_id : String) (features : List MFeature) (pmids : List String) (f : MFeature),
       f ∈ features → f.excluded = true → f.tid ≠ "" →
       ∃ a ∈ transform_phenotypic_features case_id features pmids,
         a.object = f.tid ∧ a.negated = some true) := by
  have hsplit : ∀ features : List RawFeature,
      splitPhenotypes features =
        (features.filter (fun f => !(f.excluded.getD false)),
         features.filter (fun f => f.excluded.getD false)) := by
    intro features; unfold splitPhenotypes; rw [splitPhenotypes_go]; simp
  refine ⟨hsplit, ?_, ?_⟩
  · intro features f hf hex
    rw [hsplit]
    constructor
    · exact List.mem_filter.mpr ⟨hf, by simp [hex]⟩
    · intro hmem
      have := (List.mem_filter.mp hmem).2
      simp [hex] at this
  · intro case_id features pmids f hf hex htid
    refine ⟨{ id := "PPKT:" ++ case_id, subject := case_id,
              predicate := "biolink:has_phenotype", object := f.tid,
              kind := TKind.caseToPhenotypicFeature,
              onset_qualifier := some (f.onset.getD ""),
              negated := some f.excluded,
              publications := pubsOpt pmids }, ?_, rfl, by rw [hex]⟩
    unfold transform_phenotypic_features
    exact List.mem_filterMap.mpr ⟨f, hf, by simp [htid]⟩

/-- C8 witness: the amended statement applied to one concrete excluded
feature with a non-empty id. -/
theorem c8_excluded_phenotype_amended_witness :
    ∃ a ∈ transform_phenotypic_features "patient:1"
        [{ tid := "HP:0001250", excluded := true, onset := none }] [],
      a.object = "HP:0001250" ∧ a.negated = some true :=
  c8_excluded_phenotype_amended.2.2 "patient:1"
    [{ tid := "HP:0001250", excluded := true, onset := none }] []
    { tid := "HP:0001250", excluded := true, onset := none }
    (by decide) rfl (by decide)

/-- C9 counterexample: a malformed JSONL line makes
`process_jsonl_line` re-raise the decode error: the exception escapes
the per-record boundary instead of being logged and skipped. -/
theorem c9_process_jsonl_line_raises_counterexample :
    process_jsonl_line JsonlLine.malformed = Except.error PyErr.jsonDecodeError := by
  rfl

/-- C9 amended: `transform.py::process_row` recovers every internal
error at the record boundary (it always returns the accumulated list,
never propagating), but the transformer module does not: its
`process_jsonl_line` re-raises the JSON decode error, and `process_record`
propagates `transform_case`'s `AttributeError` on a subject without a
sex value. -/
theorem c9_error_boundary_amended :
    (∀ (row : Row) (u : Nat → String), processRow row u = (processRowE row u).1) ∧
    process_jsonl_line JsonlLine.malformed = Except.error PyErr.jsonDecodeError ∧
    process_record sexlessRaw = Except.error PyErr.attributeError :=
  ⟨fun _ _ => rfl, rfl, rfl⟩

/-- C10: on a concrete row whose phenotype list holds a non-mapping
element, an `AttributeError` is raised after the gene, disease and
gene-disease entities were appended, and `process_row` still returns
exactly those three entities — partial emission, not an empty list. -/
theorem c10_partial_emission_on_midrow_failure :
    (processRowE midFailureRow (fun _ => "u0")).2 = some PyErr.attributeError ∧
    processRow midFailureRow (fun _ => "u0") =
      [Entity.gene { id := "HGNC:18865", symbol := "KCNT1" },
       Entity.disease { id := "MONDO:0100038", name := "DEE" },
       Entity.assoc { id := "u0", subject := "HGNC:18865",
                      predicate := GENE_ASSOCIATED_WITH_CONDITION,
                      object := "MONDO:0100038", kind := AssocKind.geneToDisease,
                      publications := none }] ∧
    processRow midFailureRow (fun _ => "u0") ≠ [] := by
  decide
